import Mathlib

/-!
Shallow embedding of
`nerfstudio/data/dataparsers/instant_ngp_with_depths_dataparser.py`
(the Instant-NGP-with-depths data parser) and proofs about it.

Modelling conventions:
* Python strings are `List Char` (`PyStr`).
* JSON numbers and Python floats are modelled as real numbers; `np.float32`
  and `float(...)` casts are the identity on this model.
* `pathlib` joining `a / b` is string concatenation with a separator.
* Filesystem reads (`load_from_json`, `np.load`, `imageio.imread`) are
  abstracted into an environment of functions of the path.
-/

namespace InstantNGPWithDepthsModel

/-- Python strings, modelled as lists of characters. -/
abbrev PyStr : Type := List Char

/-- `pathlib` path joining `a / b` (`PosixPath` semantics for relative `b`). -/
def joinPath (a b : PyStr) : PyStr := a ++ '/' :: b

/-- Truthiness of a `pathlib.Path` value.  `PurePath` defines neither
`__bool__` nor `__len__`, so in Python every `Path` object is truthy,
including `Path("")` (which normalises to `PosixPath(".")`). -/
def pathTruthy (_p : PyStr) : Bool := true

/-- Python slice `s[:-4]`: the prefix of `s` keeping all but the last four
characters (empty when `s` has at most four characters — `Nat` subtraction
clamps at `0` exactly like Python's slice bounds). -/
def sliceDropLast4 (s : PyStr) : PyStr := s.take (s.length - 4)

/-- The literal `"_disp.npy"`. -/
def strDispNpy : PyStr := "_disp.npy".toList

/-- The literal `"transforms.json"`. -/
def strTransformsJson : PyStr := "transforms.json".toList

/-- The literal `"depth"`. -/
def strDepth : PyStr := "depth".toList

/-- The literal `"semantics"`. -/
def strSemantics : PyStr := "semantics".toList

/-- The assertion message raised when no image files were retained
(whitespace of the triple-quoted Python string collapsed). -/
def errNoImages : PyStr :=
  "No image files found. You should check the file_paths in the transforms.json file to make sure they are correct.".toList

/-- The `AttributeError` message of `get_focal_lengths`. -/
def errFocal : PyStr :=
  "Focal length cannot be calculated from transforms.json (missing fields).".toList

/-- The relative depth-file path derived from a frame's `file_path`:
`frame["file_path"][:-4] + "_disp.npy"`. -/
def depthRelPath (file_path : PyStr) : PyStr := sliceDropLast4 file_path ++ strDispNpy

/-- One entry of `meta["frames"]` in `transforms.json`.  `transform_matrix`
is the 4×4 camera pose (`np.array(frame["transform_matrix"])`). -/
structure Frame where
  file_path : PyStr
  transform_matrix : Matrix (Fin 4) (Fin 4) ℝ

/-- The metadata dictionary parsed from `transforms.json`.  A key that may be
absent (`"fl_x" in meta`, …) is an `Option`; mandatory keys are plain
fields. -/
structure Meta where
  frames : List Frame
  fl_x : Option ℝ
  x_fov : Option ℝ
  camera_angle_x : Option ℝ
  fl_y : Option ℝ
  y_fov : Option ℝ
  camera_angle_y : Option ℝ
  k1 : ℝ
  k2 : ℝ
  p1 : ℝ
  p2 : ℝ
  aabb_scale : ℝ
  cx : ℝ
  cy : ℝ
  h : ℝ
  w : ℝ

/-- `InstantNGPWithDepthsDataParserConfig`: the dataclass configuration. -/
structure InstantNGPWithDepthsDataParserConfig where
  data : PyStr
  scale_factor : ℝ
  scene_scale : ℝ

/-- `np.deg2rad`. -/
noncomputable def deg2rad (d : ℝ) : ℝ := d * Real.pi / 180

/-- The helper nested in `get_focal_lengths`:
`fov_to_focal_length(rad, res) = 0.5 * res / np.tanh(0.5 * rad)`.
Note that the source calls `np.tanh`, the hyperbolic tangent. -/
noncomputable def fov_to_focal_length (rad res : ℝ) : ℝ :=
  0.5 * res / Real.tanh (0.5 * rad)

/-- The value held by the local variable `fl_x` of `get_focal_lengths` after
the `if "fl_x" in meta / elif "x_fov" in meta / elif "camera_angle_x" in meta`
chain ran (it was initialised to the sentinel `0`). -/
noncomputable def fl_x_resolved (meta : Meta) : ℝ :=
  match meta.fl_x with
  | some v => v
  | none =>
    match meta.x_fov with
    | some v => fov_to_focal_length (deg2rad v) meta.w
    | none =>
      match meta.camera_angle_x with
      | some v => fov_to_focal_length v meta.w
      | none => 0

/-- The value held by the local variable `fl_y` of `get_focal_lengths` after
the `if "fl_y" in meta / elif "y_fov" in meta / elif "camera_angle_y" in meta`
chain ran (it was initialised to the sentinel `0`). -/
noncomputable def fl_y_resolved (meta : Meta) : ℝ :=
  match meta.fl_y with
  | some v => v
  | none =>
    match meta.y_fov with
    | some v => fov_to_focal_length (deg2rad v) meta.h
    | none =>
      match meta.camera_angle_y with
      | some v => fov_to_focal_length v meta.h
      | none => 0

/-- `InstantNGPWithDepths.get_focal_lengths`.  The raised `AttributeError`
is modelled as `Except.error`. -/
noncomputable def get_focal_lengths (meta : Meta) : Except PyStr (ℝ × ℝ) :=
  let fl_x := fl_x_resolved meta
  let fl_y := fl_y_resolved meta
  if fl_x = 0 ∨ fl_y = 0 then
    Except.error errFocal
  else
    Except.ok (fl_x, fl_y)

/-- `CameraType` (only `PERSPECTIVE` is used by this parser). -/
inductive CameraType where
  | PERSPECTIVE
deriving DecidableEq

/-- `camera_utils.get_distortion_params` lives outside this repository's
sources; it only packs its keyword arguments, so it is modelled as the tuple
of the four coefficients passed to it. -/
def get_distortion_params (k1 k2 p1 p2 : ℝ) : ℝ × ℝ × ℝ × ℝ := (k1, k2, p1, p2)

/-- The `Cameras` object built by the parser (the fields this parser sets). -/
structure Cameras where
  fx : ℝ
  fy : ℝ
  cx : ℝ
  cy : ℝ
  distortion_params : ℝ × ℝ × ℝ × ℝ
  height : ℤ
  width : ℤ
  camera_to_worlds : List (Fin 3 → Fin 4 → ℝ)
  camera_type : CameraType

/-- `SceneBox`: the axis-aligned bounding box, as a pair (min corner,
max corner). -/
structure SceneBox where
  aabb_min : Fin 3 → ℝ
  aabb_max : Fin 3 → ℝ

/-- The scene box the parser builds from `meta["aabb_scale"]`. -/
def scene_box_of (aabb_scale : ℝ) : SceneBox :=
  { aabb_min := fun _ => -aabb_scale, aabb_max := fun _ => aabb_scale }

/-- Python `int(...)` on a (real-valued) JSON number: truncation toward
zero. -/
noncomputable def pyInt (x : ℝ) : ℤ := if 0 ≤ x then ⌊x⌋ else ⌈x⌉

/-- `get_depths`: the additional-input lookup function.  It returns the
dictionary `{"depth": depths[image_idx]}`, modelled as an association list.
(Python list indexing at a valid index; claims only use in-range indices.) -/
def get_depths {D : Type} [Inhabited D] (image_idx : ℕ) (depths : List D) :
    List (PyStr × D) :=
  [(strDepth, depths.getI image_idx)]

/-- One value of the `additional_inputs` dictionary: the callable and the
`kwargs` bound to it (here only `depths`). -/
structure AdditionalInput (D : Type) where
  func : ℕ → List D → List (PyStr × D)
  kwargs_depths : List D

/-- `DataparserOutputs` as populated by this parser.  `D` is the type of one
depth map (the `arr[0][0]` sub-array of a loaded `.npy` file). -/
structure DataparserOutputs (D : Type) where
  image_filenames : List PyStr
  cameras : Cameras
  scene_box : SceneBox
  additional_inputs : List (PyStr × AdditionalInput D)
  depths : List D

/-- The filesystem environment the parser runs against.  A `.npy` file loaded
by `np.load` is modelled by its nested indexing `arr[i][j]` (the parser only
uses `arr[0][0]`); `imread_shape` gives `imageio.imread(path).shape[:2]`;
`loadJson` gives `load_from_json(path)`. -/
structure Env (D : Type) where
  loadNpy : PyStr → ℕ → ℕ → D
  imread_shape : PyStr → ℕ × ℕ
  loadJson : PyStr → Meta

/-- The depth value appended for a retained frame:
`np.load(config.data / (frame["file_path"][:-4] + "_disp.npy"))[0][0]`. -/
def loadedDepth {D : Type} (env : Env D) (data : PyStr) (frame : Frame) : D :=
  env.loadNpy (joinPath data (depthRelPath frame.file_path)) 0 0

/-- The mutable state of the per-frame `for` loop. -/
structure LoopAcc (D : Type) where
  image_filenames : List PyStr
  poses : List (Matrix (Fin 4) (Fin 4) ℝ)
  depths : List D
  num_skipped_image_filenames : ℕ
  last_image_shape : Option (ℕ × ℕ)

/-- One iteration of the `for frame in meta["frames"]` loop. -/
def processFrame {D : Type} (env : Env D) (data : PyStr) (acc : LoopAcc D)
    (frame : Frame) : LoopAcc D :=
  let fname := joinPath data frame.file_path
  if ¬ pathTruthy fname then
    { acc with
      num_skipped_image_filenames := acc.num_skipped_image_filenames + 1 }
  else
    { acc with
      image_filenames := acc.image_filenames ++ [fname]
      poses := acc.poses ++ [frame.transform_matrix]
      depths := acc.depths ++ [loadedDepth env data frame]
      last_image_shape := some (env.imread_shape fname) }

/-- The whole per-frame loop, started from the empty accumulators. -/
def parseAcc {D : Type} (env : Env D) (data : PyStr) (frames : List Frame) :
    LoopAcc D :=
  frames.foldl (processFrame env data) ⟨[], [], [], 0, none⟩

/-- `poses[:, :3, 3] *= scene_scale`, per pose: scale the translation column
(rows 0–2 of column 3). -/
def scaleTranslations (scene_scale : ℝ) (P : Matrix (Fin 4) (Fin 4) ℝ) :
    Matrix (Fin 4) (Fin 4) ℝ :=
  fun i j => if i.val < 3 ∧ j.val = 3 then scene_scale * P i j else P i j

/-- `poses[:, :3]`, per pose: keep the top three rows. -/
def topThreeRows (P : Matrix (Fin 4) (Fin 4) ℝ) : Fin 3 → Fin 4 → ℝ :=
  fun i j => P i.castSucc j

/-- The f-string `f"Skipping ... files in dataset split ..."` printed by the
parser. -/
def skipMessage (n : ℕ) (split : PyStr) : PyStr :=
  "Skipping ".toList ++ (toString n).toList ++
    " files in dataset split ".toList ++ split ++ ".".toList

/-- The metadata the parser reads:
`load_from_json(self.config.data / "transforms.json")`. -/
def metaOf {D : Type} (env : Env D) (config : InstantNGPWithDepthsDataParserConfig) :
    Meta :=
  env.loadJson (joinPath config.data strTransformsJson)

/-- `InstantNGPWithDepths._generate_dataparser_outputs`.  The result pairs the
console log (the lines printed) with either an error (the failed `assert`, or
the `AttributeError` propagated from `get_focal_lengths`) or the
`DataparserOutputs`. -/
noncomputable def generate_dataparser_outputs {D : Type} [Inhabited D]
    (env : Env D) (config : InstantNGPWithDepthsDataParserConfig)
    (split : PyStr) :
    List PyStr × Except PyStr (DataparserOutputs D) :=
  let meta := metaOf env config
  let acc := parseAcc env config.data meta.frames
  let log :=
    if acc.num_skipped_image_filenames ≥ 0 then
      [skipMessage acc.num_skipped_image_filenames split]
    else []
  if acc.image_filenames.length = 0 then
    (log, Except.error errNoImages)
  else
    match get_focal_lengths meta with
    | Except.error e => (log, Except.error e)
    | Except.ok (fl_x, fl_y) =>
      let poses := acc.poses.map (scaleTranslations config.scene_scale)
      let camera_to_world := poses.map topThreeRows
      let cameras : Cameras :=
        { fx := fl_x
          fy := fl_y
          cx := meta.cx
          cy := meta.cy
          distortion_params := get_distortion_params meta.k1 meta.k2 meta.p1 meta.p2
          height := pyInt meta.h
          width := pyInt meta.w
          camera_to_worlds := camera_to_world
          camera_type := CameraType.PERSPECTIVE }
      (log,
        Except.ok
          { image_filenames := acc.image_filenames
            cameras := cameras
            scene_box := scene_box_of meta.aabb_scale
            additional_inputs :=
              [(strSemantics, { func := get_depths, kwargs_depths := acc.depths })]
            depths := acc.depths })

/-- Resolution of one focal axis as the spec words it (claim C3): first the
direct field, then the degrees FOV (converted to radians), then the radians
FOV; first match wins; sentinel `0` if none is present. -/
noncomputable def resolveAxisSpec (direct fov_deg fov_rad : Option ℝ) (res : ℝ) : ℝ :=
  match direct, fov_deg, fov_rad with
  | some v, _, _ => v
  | none, some v, _ => fov_to_focal_length (deg2rad v) res
  | none, none, some v => fov_to_focal_length v res
  | none, none, none => 0

/-! ### Concrete fixtures used by witnesses and counterexamples -/

/-- A frame with an ordinary image path. -/
def testFrame : Frame :=
  { file_path := "img.png".toList, transform_matrix := fun _ _ => 1 }

/-- A frame whose `file_path` is the empty string. -/
def emptyPathFrame : Frame :=
  { file_path := [], transform_matrix := fun _ _ => 1 }

/-- A manifest with direct focal lengths 50/60 and one ordinary frame. -/
def testMeta : Meta :=
  { frames := [testFrame]
    fl_x := some 50
    x_fov := none
    camera_angle_x := none
    fl_y := some 60
    y_fov := none
    camera_angle_y := none
    k1 := 0
    k2 := 0
    p1 := 0
    p2 := 0
    aabb_scale := 1
    cx := 0
    cy := 0
    h := 600
    w := 800 }

/-- A manifest whose single frame has the empty string as `file_path`. -/
def emptyPathMeta : Meta := { testMeta with frames := [emptyPathFrame] }

/-- The manifest of claim C1: `camera_angle_x = 0.857`, `w = 800`, no
`fl_x`. -/
noncomputable def m857 : Meta :=
  { frames := []
    fl_x := none
    x_fov := none
    camera_angle_x := some 0.857
    fl_y := none
    y_fov := none
    camera_angle_y := none
    k1 := 0
    k2 := 0
    p1 := 0
    p2 := 0
    aabb_scale := 1
    cx := 0
    cy := 0
    h := 600
    w := 800 }

/-- A concrete environment over depth maps modelled as `ℕ`. -/
def testEnv : Env ℕ :=
  { loadNpy := fun _ i j => i + j + 7
    imread_shape := fun _ => (5, 6)
    loadJson := fun _ => testMeta }

/-- Same as `testEnv` except for the decoded image shapes. -/
def testEnv2 : Env ℕ := { testEnv with imread_shape := fun _ => (9, 9) }

/-- Environment whose manifest is `emptyPathMeta`. -/
def emptyPathEnv : Env ℕ := { testEnv with loadJson := fun _ => emptyPathMeta }

/-- A concrete parser configuration. -/
def testConfig : InstantNGPWithDepthsDataParserConfig :=
  { data := "data".toList, scale_factor := 1, scene_scale := 2 }

/-- The literal `"train"`. -/
def strTrain : PyStr := "train".toList

/-- The literal `"test"`. -/
def strTest : PyStr := "test".toList

/-- The outputs the parser produces on `testEnv` / `testConfig`. -/
noncomputable def testOut : DataparserOutputs ℕ :=
  { image_filenames := [joinPath testConfig.data testFrame.file_path]
    cameras :=
      { fx := 50
        fy := 60
        cx := 0
        cy := 0
        distortion_params := (0, 0, 0, 0)
        height := pyInt testMeta.h
        width := pyInt testMeta.w
        camera_to_worlds :=
          [topThreeRows (scaleTranslations 2 testFrame.transform_matrix)]
        camera_type := CameraType.PERSPECTIVE }
    scene_box := scene_box_of 1
    additional_inputs :=
      [(strSemantics, { func := get_depths, kwargs_depths := [7] })]
    depths := [7] }

/-! ### Characterisation of the per-frame loop -/

/-- No frame is ever skipped: the `if not fname` branch is dead because a
`pathlib.Path` is always truthy, so every iteration retains its frame. -/
theorem processFrame_eq {D : Type} (env : Env D) (data : PyStr)
    (acc : LoopAcc D) (frame : Frame) :
    processFrame env data acc frame =
      { acc with
        image_filenames := acc.image_filenames ++ [joinPath data frame.file_path]
        poses := acc.poses ++ [frame.transform_matrix]
        depths := acc.depths ++ [loadedDepth env data frame]
        last_image_shape :=
          some (env.imread_shape (joinPath data frame.file_path)) } := by
  simp [processFrame, pathTruthy]

theorem foldl_image_filenames {D : Type} (env : Env D) (data : PyStr) :
    ∀ (frames : List Frame) (acc : LoopAcc D),
      (frames.foldl (processFrame env data) acc).image_filenames =
        acc.image_filenames ++ frames.map (fun f => joinPath data f.file_path)
  | [], acc => by simp
  | f :: fs, acc => by
    rw [List.foldl_cons, foldl_image_filenames env data fs, processFrame_eq]
    simp

theorem foldl_poses {D : Type} (env : Env D) (data : PyStr) :
    ∀ (frames : List Frame) (acc : LoopAcc D),
      (frames.foldl (processFrame env data) acc).poses =
        acc.poses ++ frames.map (fun f => f.transform_matrix)
  | [], acc => by simp
  | f :: fs, acc => by
    rw [List.foldl_cons, foldl_poses env data fs, processFrame_eq]
    simp

theorem foldl_depths {D : Type} (env : Env D) (data : PyStr) :
    ∀ (frames : List Frame) (acc : LoopAcc D),
      (frames.foldl (processFrame env data) acc).depths =
        acc.depths ++ frames.map (loadedDepth env data)
  | [], acc => by simp
  | f :: fs, acc => by
    rw [List.foldl_cons, foldl_depths env data fs, processFrame_eq]
    simp

theorem foldl_num_skipped {D : Type} (env : Env D) (data : PyStr) :
    ∀ (frames : List Frame) (acc : LoopAcc D),
      (frames.foldl (processFrame env data) acc).num_skipped_image_filenames =
        acc.num_skipped_image_filenames
  | [], _acc => rfl
  | f :: fs, acc => by
    rw [List.foldl_cons, foldl_num_skipped env data fs, processFrame_eq]

theorem parseAcc_image_filenames {D : Type} (env : Env D) (data : PyStr)
    (frames : List Frame) :
    (parseAcc env data frames).image_filenames =
      frames.map (fun f => joinPath data f.file_path) := by
  rw [parseAcc, foldl_image_filenames]
  rfl

theorem parseAcc_poses {D : Type} (env : Env D) (data : PyStr)
    (frames : List Frame) :
    (parseAcc env data frames).poses = frames.map (fun f => f.transform_matrix) := by
  rw [parseAcc, foldl_poses]
  rfl

theorem parseAcc_depths {D : Type} (env : Env D) (data : PyStr)
    (frames : List Frame) :
    (parseAcc env data frames).depths = frames.map (loadedDepth env data) := by
  rw [parseAcc, foldl_depths]
  rfl

theorem parseAcc_num_skipped {D : Type} (env : Env D) (data : PyStr)
    (frames : List Frame) :
    (parseAcc env data frames).num_skipped_image_filenames = 0 := by
  rw [parseAcc, foldl_num_skipped]

/-- The list of depth maps the parser ends up with. -/
def depthsOf {D : Type} (env : Env D)
    (config : InstantNGPWithDepthsDataParserConfig) : List D :=
  (metaOf env config).frames.map (loadedDepth env config.data)

/-- Closed form of the whole parser: the log always consists of the single
skip message with count `0`; the output, when the manifest has frames and the
focal lengths resolve, lists every frame in manifest order. -/
theorem generate_dataparser_outputs_eq {D : Type} [Inhabited D]
    (env : Env D) (config : InstantNGPWithDepthsDataParserConfig)
    (split : PyStr) :
    generate_dataparser_outputs env config split =
      ( [skipMessage 0 split],
        if (metaOf env config).frames.length = 0 then
          Except.error errNoImages
        else
          match get_focal_lengths (metaOf env config) with
          | Except.error e => Except.error e
          | Except.ok (fl_x, fl_y) =>
            Except.ok
              { image_filenames :=
                  (metaOf env config).frames.map
                    (fun f => joinPath config.data f.file_path)
                cameras :=
                  { fx := fl_x
                    fy := fl_y
                    cx := (metaOf env config).cx
                    cy := (metaOf env config).cy
                    distortion_params :=
                      get_distortion_params (metaOf env config).k1
                        (metaOf env config).k2 (metaOf env config).p1
                        (metaOf env config).p2
                    height := pyInt (metaOf env config).h
                    width := pyInt (metaOf env config).w
                    camera_to_worlds :=
                      (metaOf env config).frames.map
                        (fun f =>
                          topThreeRows
                            (scaleTranslations config.scene_scale
                              f.transform_matrix))
                    camera_type := CameraType.PERSPECTIVE }
                scene_box := scene_box_of (metaOf env config).aabb_scale
                additional_inputs :=
                  [(strSemantics,
                    { func := get_depths
                      kwargs_depths := depthsOf env config })]
                depths := depthsOf env config } ) := by
  rw [generate_dataparser_outputs]
  rw [parseAcc_image_filenames, parseAcc_poses, parseAcc_depths,
    parseAcc_num_skipped]
  simp only [ge_iff_le, Nat.zero_le, if_true, List.length_map, List.map_map]
  split
  · rfl
  · split <;> rfl

/-! ### Bounds on `tanh` at the inputs of the focal-length claims -/

theorem exp_857_lt : Real.exp 0.857 < 2.5 := by
  have hsum : (0.857 : ℝ) + 0.143 = 1 := by norm_num
  have hmul : Real.exp 0.857 * Real.exp 0.143 = Real.exp 1 := by
    rw [← Real.exp_add, hsum]
  have h143 : (1.143 : ℝ) < Real.exp 0.143 := by
    have h := Real.add_one_lt_exp (x := (0.143 : ℝ)) (by norm_num)
    linarith
  have he1 : Real.exp 1 < 2.7182818286 := Real.exp_one_lt_d9
  have hpos : (0 : ℝ) < Real.exp 0.857 := Real.exp_pos _
  nlinarith [hmul, h143, he1, hpos]

theorem tanh_4285_lt : Real.tanh 0.4285 < 0.45 := by
  have ha : (0 : ℝ) < Real.exp 0.4285 := Real.exp_pos _
  have hb : (0 : ℝ) < Real.exp (-0.4285) := Real.exp_pos _
  have hprod : Real.exp 0.4285 * Real.exp (-0.4285) = 1 := by
    rw [← Real.exp_add]
    norm_num
  have hsq : Real.exp 0.4285 * Real.exp 0.4285 = Real.exp 0.857 := by
    rw [← Real.exp_add]
    norm_num
  have hlt : Real.exp 0.4285 * Real.exp 0.4285 < 2.5 := by
    rw [hsq]
    exact exp_857_lt
  rw [Real.tanh_eq_sinh_div_cosh, Real.sinh_eq, Real.cosh_eq]
  rw [div_lt_iff₀ (by positivity)]
  nlinarith [hprod, hlt, ha, hb]

theorem tanh_4285_pos : (0 : ℝ) < Real.tanh 0.4285 := by
  rw [Real.tanh_eq_sinh_div_cosh]
  exact div_pos (Real.sinh_pos_iff.mpr (by norm_num)) (Real.cosh_pos _)

/-! ### Evaluation lemmas on the concrete fixtures -/

theorem get_focal_lengths_testMeta :
    get_focal_lengths testMeta = Except.ok (50, 60) := by
  have hx : fl_x_resolved testMeta = 50 := rfl
  have hy : fl_y_resolved testMeta = 60 := rfl
  simp only [get_focal_lengths, hx, hy]
  rw [if_neg (by norm_num)]

theorem generate_testEnv_eq :
    generate_dataparser_outputs testEnv testConfig strTrain =
      ([skipMessage 0 strTrain], Except.ok testOut) := by
  rw [generate_dataparser_outputs_eq]
  have hm : metaOf testEnv testConfig = testMeta := rfl
  simp only [hm]
  rw [if_neg (by simp [testMeta])]
  rw [get_focal_lengths_testMeta]
  rfl

theorem generate_emptyPathEnv_isOk :
    (generate_dataparser_outputs emptyPathEnv testConfig strTrain).2.isOk = true := by
  rw [generate_dataparser_outputs_eq]
  have hm : metaOf emptyPathEnv testConfig = emptyPathMeta := rfl
  have hfocal : get_focal_lengths emptyPathMeta = Except.ok (50, 60) := by
    have hx : fl_x_resolved emptyPathMeta = 50 := rfl
    have hy : fl_y_resolved emptyPathMeta = 60 := rfl
    simp only [get_focal_lengths, hx, hy]
    rw [if_neg (by norm_num)]
  simp only [hm]
  rw [if_neg (by simp [emptyPathMeta, testMeta])]
  rw [hfocal]
  rfl

/-- Projections of every successful parse: the retained frames are exactly
the manifest's frames, in order. -/
theorem generate_ok_eq {D : Type} [Inhabited D] (env : Env D)
    (config : InstantNGPWithDepthsDataParserConfig) (split : PyStr)
    (out : DataparserOutputs D)
    (h : (generate_dataparser_outputs env config split).2 = Except.ok out) :
    out.image_filenames =
      (metaOf env config).frames.map (fun f => joinPath config.data f.file_path) ∧
    out.cameras.camera_to_worlds =
      (metaOf env config).frames.map
        (fun f => topThreeRows (scaleTranslations config.scene_scale f.transform_matrix)) ∧
    out.depths = depthsOf env config ∧
    out.additional_inputs =
      [(strSemantics, { func := get_depths, kwargs_depths := depthsOf env config })] ∧
    out.cameras.height = pyInt (metaOf env config).h ∧
    out.cameras.width = pyInt (metaOf env config).w := by
  rw [generate_dataparser_outputs_eq] at h
  dsimp only at h
  split at h
  · exact absurd h (by simp)
  · split at h
    · exact absurd h (by simp)
    · injection h with h2
      subst h2
      exact ⟨rfl, rfl, rfl, rfl, rfl, rfl⟩

/-- Pointwise description of scaling-then-slicing one pose. -/
theorem topThree_scale_eq (ss : ℝ) (P : Matrix (Fin 4) (Fin 4) ℝ) :
    topThreeRows (scaleTranslations ss P) =
      fun (i : Fin 3) (j : Fin 4) =>
        if j.val = 3 then ss * P i.castSucc j else P i.castSucc j := by
  funext i j
  simp only [topThreeRows, scaleTranslations]
  have h3 : (i.castSucc : Fin 4).val < 3 := by
    simp
  by_cases hj : j.val = 3
  · rw [if_pos ⟨h3, hj⟩, if_pos hj]
  · rw [if_neg (by tauto), if_neg hj]

/-! ### The claims -/

/-- C1 counterexample: on the manifest with `camera_angle_x = 0.857` and
`w = 800` (no `fl_x`), the resolved x focal length is `400 / tanh 0.4285`
(the code divides by `np.tanh`, not `tan`), which exceeds `869.8 + 1e-1`,
so it is not approximately 869.8 within 1e-1 as the claim states. -/
theorem C1_counterexample :
    fl_x_resolved m857 = 400 / Real.tanh 0.4285 ∧
      869.8 + 1 / 10 < fl_x_resolved m857 := by
  have h : fl_x_resolved m857 = 400 / Real.tanh 0.4285 := by
    have h0 : fl_x_resolved m857 = fov_to_focal_length 0.857 800 := rfl
    rw [h0, fov_to_focal_length]
    norm_num
  refine ⟨h, ?_⟩
  rw [h, lt_div_iff₀ tanh_4285_pos]
  nlinarith [tanh_4285_lt, tanh_4285_pos]

/-- C1 (amended): for every manifest lacking `fl_x` but providing `x_fov`
(degrees) or `camera_angle_x` (radians), the resolver computes the x focal
length as `0.5 * resolution / tanh(0.5 * fov_radians)` — with the hyperbolic
tangent `np.tanh`, not `tan` — converting degrees to radians first for
`x_fov`, and symmetrically for the y axis; in particular for
`camera_angle_x = 0.857` and `w = 800` (no `fl_x`) the x value equals
`400 / tanh 0.4285 ≈ 990.0`, which is not within 1e-1 of 869.8. -/
theorem C1_theorem :
    (∀ (meta : Meta) (v : ℝ), meta.fl_x = none → meta.x_fov = some v →
        fl_x_resolved meta = 0.5 * meta.w / Real.tanh (0.5 * deg2rad v)) ∧
    (∀ (meta : Meta) (v : ℝ), meta.fl_x = none → meta.x_fov = none →
        meta.camera_angle_x = some v →
        fl_x_resolved meta = 0.5 * meta.w / Real.tanh (0.5 * v)) ∧
    (∀ (meta : Meta) (v : ℝ), meta.fl_y = none → meta.y_fov = some v →
        fl_y_resolved meta = 0.5 * meta.h / Real.tanh (0.5 * deg2rad v)) ∧
    (∀ (meta : Meta) (v : ℝ), meta.fl_y = none → meta.y_fov = none →
        meta.camera_angle_y = some v →
        fl_y_resolved meta = 0.5 * meta.h / Real.tanh (0.5 * v)) ∧
    fl_x_resolved m857 = 400 / Real.tanh 0.4285 ∧
    869.8 + 1 / 10 < fl_x_resolved m857 := by
  refine ⟨?_, ?_, ?_, ?_, ?_, ?_⟩
  · intro meta v h1 h2
    simp [fl_x_resolved, h1, h2, fov_to_focal_length]
  · intro meta v h1 h2 h3
    simp [fl_x_resolved, h1, h2, h3, fov_to_focal_length]
  · intro meta v h1 h2
    simp [fl_y_resolved, h1, h2, fov_to_focal_length]
  · intro meta v h1 h2 h3
    simp [fl_y_resolved, h1, h2, h3, fov_to_focal_length]
  · have h0 : fl_x_resolved m857 = fov_to_focal_length 0.857 800 := rfl
    rw [h0, fov_to_focal_length]
    norm_num
  · have h : fl_x_resolved m857 = 400 / Real.tanh 0.4285 := by
      have h0 : fl_x_resolved m857 = fov_to_focal_length 0.857 800 := rfl
      rw [h0, fov_to_focal_length]
      norm_num
    rw [h, lt_div_iff₀ tanh_4285_pos]
    nlinarith [tanh_4285_lt, tanh_4285_pos]

/-- C1 witness: the amended formula applied to the concrete manifest of the
claim. -/
theorem C1_witness :
    m857.fl_x = none ∧ m857.x_fov = none ∧ m857.camera_angle_x = some 0.857 ∧
      fl_x_resolved m857 = 0.5 * m857.w / Real.tanh (0.5 * 0.857) :=
  ⟨rfl, rfl, rfl, C1_theorem.2.1 m857 0.857 rfl rfl rfl⟩

/-- C2: the claim says a frame whose `file_path` resolves falsy (e.g. the
empty string) is skipped, and that a manifest of only such frames fails with
the zero-retained-frames error with skip count `len(frames)`.  In the code,
`fname` is a `pathlib.Path`, which is always truthy, so `if not fname` never
fires: on the one-frame manifest whose `file_path` is the empty string the
skip counter stays `0`, the frame is retained, and parsing succeeds. -/
theorem C2_theorem :
    pathTruthy (joinPath testConfig.data emptyPathFrame.file_path) = true ∧
    (parseAcc emptyPathEnv testConfig.data
        emptyPathMeta.frames).num_skipped_image_filenames = 0 ∧
    (parseAcc emptyPathEnv testConfig.data
        emptyPathMeta.frames).image_filenames.length = emptyPathMeta.frames.length ∧
    (generate_dataparser_outputs emptyPathEnv testConfig strTrain).2.isOk = true := by
  refine ⟨rfl, parseAcc_num_skipped _ _ _, ?_, generate_emptyPathEnv_isOk⟩
  rw [parseAcc_image_filenames, List.length_map]

/-- C3: per-axis resolution follows the priority order direct field, degrees
FOV, radians FOV (first match wins, sentinel `0` otherwise); the error is
raised iff either resolved axis is exactly `0`; when both `fl_x` and `fl_y`
are present they are returned unchanged — `(50, 60)` for
`{fl_x: 50, fl_y: 60}`. -/
theorem C3_theorem :
    (∀ meta : Meta,
        fl_x_resolved meta =
          resolveAxisSpec meta.fl_x meta.x_fov meta.camera_angle_x meta.w ∧
        fl_y_resolved meta =
          resolveAxisSpec meta.fl_y meta.y_fov meta.camera_angle_y meta.h) ∧
    (∀ meta : Meta,
        get_focal_lengths meta = Except.error errFocal ↔
          fl_x_resolved meta = 0 ∨ fl_y_resolved meta = 0) ∧
    (∀ meta : Meta, ¬(fl_x_resolved meta = 0 ∨ fl_y_resolved meta = 0) →
        get_focal_lengths meta =
          Except.ok (fl_x_resolved meta, fl_y_resolved meta)) ∧
    (∀ meta : Meta, meta.fl_x = some 50 → meta.fl_y = some 60 →
        get_focal_lengths meta = Except.ok (50, 60)) := by
  refine ⟨?_, ?_, ?_, ?_⟩
  · intro meta
    constructor
    · rcases h1 : meta.fl_x with _ | v
      · rcases h2 : meta.x_fov with _ | v
        · rcases h3 : meta.camera_angle_x with _ | v <;>
            simp [fl_x_resolved, resolveAxisSpec, h1, h2, h3]
        · simp [fl_x_resolved, resolveAxisSpec, h1, h2]
      · simp [fl_x_resolved, resolveAxisSpec, h1]
    · rcases h1 : meta.fl_y with _ | v
      · rcases h2 : meta.y_fov with _ | v
        · rcases h3 : meta.camera_angle_y with _ | v <;>
            simp [fl_y_resolved, resolveAxisSpec, h1, h2, h3]
        · simp [fl_y_resolved, resolveAxisSpec, h1, h2]
      · simp [fl_y_resolved, resolveAxisSpec, h1]
  · intro meta
    simp only [get_focal_lengths]
    split_ifs with h
    · simp [h]
    · simp [h]
  · intro meta h
    simp only [get_focal_lengths]
    rw [if_neg h]
  · intro meta h1 h2
    have hx : fl_x_resolved meta = 50 := by simp [fl_x_resolved, h1]
    have hy : fl_y_resolved meta = 60 := by simp [fl_y_resolved, h2]
    simp only [get_focal_lengths, hx, hy]
    rw [if_neg (by norm_num)]

/-- C3 witness: the concrete manifest with `fl_x = 50` and `fl_y = 60`. -/
theorem C3_witness :
    testMeta.fl_x = some 50 ∧ testMeta.fl_y = some 60 ∧
      get_focal_lengths testMeta = Except.ok (50, 60) :=
  ⟨rfl, rfl, C3_theorem.2.2.2 testMeta rfl rfl⟩

/-- C4: the retained poses, after stacking, have only the translation column
(rows 0–2 of column 3) multiplied by `scene_scale`; the rotation block is
unchanged and the homogeneous fourth row is dropped, so each output
camera-to-world transform is the top three rows of the input pose with its
translation scaled. -/
theorem C4_theorem :
    (∀ (D : Type) [Inhabited D] (env : Env D)
        (config : InstantNGPWithDepthsDataParserConfig) (split : PyStr)
        (out : DataparserOutputs D),
        (generate_dataparser_outputs env config split).2 = Except.ok out →
        out.cameras.camera_to_worlds =
          (metaOf env config).frames.map
            (fun f (i : Fin 3) (j : Fin 4) =>
              if j.val = 3 then
                config.scene_scale * f.transform_matrix i.castSucc j
              else f.transform_matrix i.castSucc j)) ∧
    (∀ (ss : ℝ) (P : Matrix (Fin 4) (Fin 4) ℝ) (i : Fin 3) (j : Fin 4),
        j.val < 3 → topThreeRows (scaleTranslations ss P) i j = P i.castSucc j) ∧
    (∀ (ss : ℝ) (P : Matrix (Fin 4) (Fin 4) ℝ) (i : Fin 3),
        topThreeRows (scaleTranslations ss P) i 3 = ss * P i.castSucc 3) := by
  refine ⟨?_, ?_, ?_⟩
  · intro D _ env config split out h
    rw [(generate_ok_eq env config split out h).2.1]
    apply List.map_congr_left
    intro f _
    rw [topThree_scale_eq]
  · intro ss P i j hj
    rw [topThree_scale_eq]
    simp only
    rw [if_neg (by omega)]
  · intro ss P i
    rw [topThree_scale_eq]
    simp only
    rw [if_pos (by decide)]

/-- C4 witness: the pose post-processing evaluated on the concrete parse. -/
theorem C4_witness :
    testOut.cameras.camera_to_worlds =
      (metaOf testEnv testConfig).frames.map
        (fun f (i : Fin 3) (j : Fin 4) =>
          if j.val = 3 then
            testConfig.scene_scale * f.transform_matrix i.castSucc j
          else f.transform_matrix i.castSucc j) :=
  C4_theorem.1 ℕ testEnv testConfig strTrain testOut (by rw [generate_testEnv_eq])

/-- C5: on every successful parse the retained image paths, camera-to-world
transforms, and depth arrays have the same length, equal to `len(frames)`
minus the skip count, and each sequence follows manifest order. -/
theorem C5_theorem (D : Type) [Inhabited D] (env : Env D)
    (config : InstantNGPWithDepthsDataParserConfig) (split : PyStr)
    (out : DataparserOutputs D)
    (h : (generate_dataparser_outputs env config split).2 = Except.ok out) :
    out.image_filenames.length = out.cameras.camera_to_worlds.length ∧
    out.image_filenames.length = out.depths.length ∧
    out.image_filenames.length =
      (metaOf env config).frames.length -
        (parseAcc env config.data
            (metaOf env config).frames).num_skipped_image_filenames ∧
    out.image_filenames =
      (metaOf env config).frames.map (fun f => joinPath config.data f.file_path) ∧
    out.cameras.camera_to_worlds =
      (metaOf env config).frames.map
        (fun f => topThreeRows (scaleTranslations config.scene_scale f.transform_matrix)) ∧
    out.depths = (metaOf env config).frames.map (loadedDepth env config.data) := by
  obtain ⟨h1, h2, h3, _h4, _, _⟩ := generate_ok_eq env config split out h
  refine ⟨?_, ?_, ?_, h1, h2, h3⟩
  · rw [h1, h2, List.length_map, List.length_map]
  · rw [h1, h3, depthsOf, List.length_map, List.length_map]
  · rw [h1, List.length_map, parseAcc_num_skipped]
    rfl

/-- C5 witness: the length and order invariants on the concrete parse. -/
theorem C5_witness :
    testOut.image_filenames.length = testOut.cameras.camera_to_worlds.length ∧
    testOut.image_filenames.length = testOut.depths.length ∧
    testOut.image_filenames.length =
      (metaOf testEnv testConfig).frames.length -
        (parseAcc testEnv testConfig.data
            (metaOf testEnv testConfig).frames).num_skipped_image_filenames :=
  ⟨(C5_theorem ℕ testEnv testConfig strTrain testOut (by rw [generate_testEnv_eq])).1,
   (C5_theorem ℕ testEnv testConfig strTrain testOut (by rw [generate_testEnv_eq])).2.1,
   (C5_theorem ℕ testEnv testConfig strTrain testOut (by rw [generate_testEnv_eq])).2.2.1⟩

/-- C6: every retained frame's depth array is the `[0][0]` sub-array of the
`.npy` file at `file_path[:-4] + "_disp.npy"` under the same root, and the
stored lookup descriptor applied to index `i` returns the dictionary
`{"depth": d_i}` with `d_i` the `i`-th retained depth array. -/
theorem C6_theorem (D : Type) [Inhabited D] (env : Env D)
    (config : InstantNGPWithDepthsDataParserConfig) (split : PyStr)
    (out : DataparserOutputs D)
    (h : (generate_dataparser_outputs env config split).2 = Except.ok out) :
    out.depths =
      (metaOf env config).frames.map
        (fun f =>
          env.loadNpy
            (joinPath config.data (sliceDropLast4 f.file_path ++ strDispNpy)) 0 0) ∧
    ∀ (i : ℕ), i < out.depths.length →
      ∀ (key : PyStr) (desc : AdditionalInput D),
        out.additional_inputs = [(key, desc)] →
        desc.func i desc.kwargs_depths = [(strDepth, out.depths.getI i)] := by
  obtain ⟨_, _, h3, h4, _, _⟩ := generate_ok_eq env config split out h
  constructor
  · rw [h3, depthsOf]
    apply List.map_congr_left
    intro f _
    rw [loadedDepth, depthRelPath]
  · intro i _hi key desc hdesc
    rw [h4] at hdesc
    injection hdesc with hhead _
    injection hhead with _ hdesc2
    rw [← hdesc2]
    simp only [get_depths]
    rw [h3]

/-- C6 witness: the depth lookup at index 0 of the concrete parse. -/
theorem C6_witness :
    get_depths 0 ([7] : List ℕ) = [(strDepth, testOut.depths.getI 0)] ∧
      testOut.depths.getI 0 = 7 := by
  constructor
  · have h :=
      (C6_theorem ℕ testEnv testConfig strTrain testOut
          (by rw [generate_testEnv_eq])).2 0 (by simp [testOut]) strSemantics
        { func := get_depths, kwargs_depths := [7] } rfl
    exact h
  · rfl

/-- C7: the reported camera height and width come from the manifest's `h`
and `w` converted to integers, and the per-frame image decode has no effect
on the parse result at all. -/
theorem C7_theorem :
    (∀ (D : Type) [Inhabited D] (env : Env D)
        (config : InstantNGPWithDepthsDataParserConfig) (split : PyStr)
        (out : DataparserOutputs D),
        (generate_dataparser_outputs env config split).2 = Except.ok out →
        out.cameras.height = pyInt (metaOf env config).h ∧
        out.cameras.width = pyInt (metaOf env config).w) ∧
    (∀ (D : Type) [Inhabited D] (env env2 : Env D)
        (config : InstantNGPWithDepthsDataParserConfig) (split : PyStr),
        env.loadNpy = env2.loadNpy → env.loadJson = env2.loadJson →
        generate_dataparser_outputs env config split =
          generate_dataparser_outputs env2 config split) := by
  constructor
  · intro D _ env config split out h
    exact ⟨(generate_ok_eq env config split out h).2.2.2.2.1,
      (generate_ok_eq env config split out h).2.2.2.2.2⟩
  · intro D _ env env2 config split hnpy hjson
    have hm : metaOf env config = metaOf env2 config := by
      rw [metaOf, metaOf, hjson]
    have hl : loadedDepth env config.data = loadedDepth env2 config.data := by
      funext f
      rw [loadedDepth, loadedDepth, hnpy]
    have hd : depthsOf env config = depthsOf env2 config := by
      rw [depthsOf, depthsOf, hm, hl]
    rw [generate_dataparser_outputs_eq, generate_dataparser_outputs_eq, hm]
    rw [show depthsOf env config = depthsOf env2 config from hd]

/-- C7 witness: two environments differing only in decoded image shapes give
the same result, and the concrete output's height is `int(meta["h"])`. -/
theorem C7_witness :
    generate_dataparser_outputs testEnv testConfig strTrain =
      generate_dataparser_outputs testEnv2 testConfig strTrain ∧
    testOut.cameras.height = pyInt (metaOf testEnv testConfig).h :=
  ⟨C7_theorem.2 ℕ testEnv testEnv2 testConfig strTrain rfl rfl,
   (C7_theorem.1 ℕ testEnv testConfig strTrain testOut
       (by rw [generate_testEnv_eq])).1⟩

/-- C8: two parse calls differing only in the split identifier produce
identical outputs; the split value only enters the informational log line. -/
theorem C8_theorem (D : Type) [Inhabited D] (env : Env D)
    (config : InstantNGPWithDepthsDataParserConfig) (split1 split2 : PyStr) :
    (generate_dataparser_outputs env config split1).2 =
      (generate_dataparser_outputs env config split2).2 ∧
    (generate_dataparser_outputs env config split1).1 =
      [skipMessage 0 split1] := by
  rw [generate_dataparser_outputs_eq, generate_dataparser_outputs_eq]
  exact ⟨rfl, rfl⟩

/-- C9: the lookup descriptor is stored in `additional_inputs` under the key
`"semantics"`, not `"depth"`; only the dictionary returned by `get_depths`
itself uses the key `"depth"`. -/
theorem C9_theorem (D : Type) [Inhabited D] (env : Env D)
    (config : InstantNGPWithDepthsDataParserConfig) (split : PyStr)
    (out : DataparserOutputs D)
    (h : (generate_dataparser_outputs env config split).2 = Except.ok out) :
    out.additional_inputs.map Prod.fst = [strSemantics] ∧
    strSemantics ≠ strDepth ∧
    ∀ (i : ℕ) (ds : List D), (get_depths i ds).map Prod.fst = [strDepth] := by
  refine ⟨?_, by decide, fun i ds => rfl⟩
  rw [(generate_ok_eq env config split out h).2.2.2.1]
  rfl

/-- C9 witness: the stored key on the concrete parse. -/
theorem C9_witness :
    testOut.additional_inputs.map Prod.fst = [strSemantics] :=
  (C9_theorem ℕ testEnv testConfig strTrain testOut
      (by rw [generate_testEnv_eq])).1

/-- C10: the depth-path derivation removes the last four characters of
`file_path` unconditionally — any four-character tail is stripped, extension
or not — and a `file_path` shorter than four characters is removed entirely,
leaving `"_disp.npy"` alone. -/
theorem C10_theorem :
    (∀ p s : PyStr, s.length = 4 → depthRelPath (p ++ s) = p ++ strDispNpy) ∧
    (∀ fp : PyStr, fp.length < 4 → depthRelPath fp = strDispNpy) := by
  constructor
  · intro p s hs
    rw [depthRelPath, sliceDropLast4, List.length_append, hs,
      Nat.add_sub_cancel, List.take_left]
  · intro fp h
    rw [depthRelPath, sliceDropLast4, Nat.sub_eq_zero_of_le (by omega),
      List.take_zero]
    rfl

/-- C10 witness: stripping the `.png` tail of `"img.png"`, and a two-character
path collapsing to the bare suffix. -/
theorem C10_witness :
    depthRelPath ("img".toList ++ ".png".toList) = "img".toList ++ strDispNpy ∧
      depthRelPath "ab".toList = strDispNpy :=
  ⟨C10_theorem.1 "img".toList ".png".toList rfl,
   C10_theorem.2 "ab".toList (by decide)⟩

end InstantNGPWithDepthsModel
